import Mathlib

/-!
# iap_gcs_server: the request handler of `main.go`

A shallow embedding of `handle`, `validateIAP` and `logRequest` from `main.go`.

The handler talks to two external services (the `idtoken` validator and the
Cloud Storage client) and to the `net/http` response writer.  The services are
parameters of the model (`Env`); the response writer and the log are explicit
state (`State`) threaded through the handler, so that every call the handler
makes is recorded in the order it is made.

Go strings are embedded as Lean strings; the only string operations the handler
uses are `strings.TrimPrefix`, `strings.HasSuffix`, `+` and `==`, all with the
one-byte ASCII separator `/` or the literal `index.html`.
-/

namespace IapGcsServer

/-! ## Go library pieces used by the handler -/

/-- Go `strings.HasPrefix`: `len(s) >= len(prefix) && s[:len(prefix)] == prefix`. -/
def hasPrefix (s pre : String) : Bool :=
  decide (pre.data.length ≤ s.data.length) && (s.data.take pre.data.length == pre.data)

/-- Go `strings.TrimPrefix`: `s[len(prefix):]` when `s` starts with `prefix`, else `s`. -/
def trimPrefix (s pre : String) : String :=
  if hasPrefix s pre then ⟨s.data.drop pre.data.length⟩ else s

/-- Go `strings.HasSuffix`: `len(s) >= len(suffix) && s[len(s)-len(suffix):] == suffix`. -/
def hasSuffix (s suf : String) : Bool :=
  decide (suf.data.length ≤ s.data.length) &&
    (s.data.drop (s.data.length - suf.data.length) == suf.data)

/-- A Go `error` value as the handler can observe it: the handler only compares
an error with the sentinel `storage.ErrObjectNotExist` (by `==`) and logs it. -/
inductive GoError where
  /-- The sentinel `storage.ErrObjectNotExist`. -/
  | ErrObjectNotExist
  /-- Any other error value. -/
  | other (msg : String)
  deriving DecidableEq, Repr

/-- Object content and response bodies are byte sequences. -/
abbrev Bytes := List UInt8

/-- The bytes of an ASCII text such as the reason phrases passed to `http.Error`. -/
def textBytes (s : String) : Bytes := s.data.map fun c => c.toNat.toUInt8

/-- HTTP status codes of `net/http` used by the handler. -/
def StatusOK : Nat := 200
/-- Code `http.StatusForbidden`. -/
def StatusForbidden : Nat := 403
/-- Code `http.StatusNotFound`. -/
def StatusNotFound : Nat := 404
/-- Code `http.StatusInternalServerError`. -/
def StatusInternalServerError : Nat := 500

/-- A `*storage.Reader` obtained from a successful `NewReader`.  `content` is the
object's content.  `copyFault = some (k, e)` means that `io.Copy(w, reader)`
transfers the first `k` bytes of the content and then returns the error `e`;
`none` means that the copy transfers the whole content and returns `nil`. -/
structure Reader where
  content : Bytes
  copyFault : Option (Nat × GoError)
  deriving DecidableEq, Repr

deriving instance DecidableEq for Except

/-- The part of `*http.Request` the handler reads. -/
structure Request where
  /-- Field `r.Method`.  The handler is registered for every method and never
  reads it; the server does, when it writes the response. -/
  method : String
  /-- Field `r.URL.Path`. -/
  path : String
  /-- Value of `r.Header.Get("X-Goog-IAP-JWT-Assertion")`; empty when the header is absent. -/
  iapAssertion : String
  deriving DecidableEq, Repr

/-- The collaborators and process-wide configuration of the handler. -/
structure Env where
  /-- Global `bucketName`. -/
  bucketName : String
  /-- Value of `os.Getenv("IAP_AUDIENCE")`. -/
  audience : String
  /-- Call `idtoken.Validate(ctx, token, audience)`: `none` is a nil error. -/
  validate : String → String → Option GoError
  /-- Call `storageClient.Bucket(bucket).Object(object).NewReader(ctx)`. -/
  newReader : String → String → Except GoError Reader

/-- A `http.ResponseWriter`.  `isHead` tells that the request of this response
has method `HEAD`: the server then sends the header only and drops every body
byte written.  `status` is `none` until the header is written.  `body` is the
body sent to the client. -/
structure ResponseWriter where
  isHead : Bool
  status : Option Nat
  body : Bytes
  deriving DecidableEq, Repr

/-- The writer the server hands to the handler for the request `r`. -/
def ResponseWriter.fresh (r : Request) : ResponseWriter :=
  ⟨decide (r.method = "HEAD"), none, []⟩

/-- Method `WriteHeader`: only the first call takes effect. -/
def ResponseWriter.writeHeader (w : ResponseWriter) (code : Nat) : ResponseWriter :=
  match w.status with
  | none => { w with status := some code }
  | some _ => w

/-- Method `Write`: writes the header with status 200 unless it was written
before, then appends to the body; for a `HEAD` request the write succeeds and
the bytes are dropped. -/
def ResponseWriter.write (w : ResponseWriter) (b : Bytes) : ResponseWriter :=
  let w1 := w.writeHeader StatusOK
  { w1 with body := if w1.isHead then w1.body else w1.body ++ b }

/-- Function `http.Error(w, msg, code)`: `w.WriteHeader(code)` then
`fmt.Fprintln(w, msg)`. -/
def httpError (w : ResponseWriter) (msg : String) (code : Nat) : ResponseWriter :=
  (w.writeHeader code).write (textBytes (msg ++ "\n"))

/-- Function `io.Copy(w, reader)`: returns the writer after the copy, the
number of bytes written and the error of the copy.  `Write` is not called when
no byte is transferred. -/
def ioCopy (w : ResponseWriter) (reader : Reader) : ResponseWriter × Nat × Option GoError :=
  match reader.copyFault with
  | none =>
    (if reader.content.isEmpty then w else w.write reader.content, reader.content.length, none)
  | some (k, e) =>
    let sent := reader.content.take k
    (if sent.isEmpty then w else w.write sent, sent.length, some e)

/-- A record emitted through `slog` by `logRequest`. -/
structure LogRecord where
  /-- True for `logger.Error`, false for `logger.Info`. -/
  isError : Bool
  msg : String
  error : Option GoError
  request : Request
  status : Nat
  deriving DecidableEq, Repr

/-- What the handler does to the outside world, in order. -/
inductive Event where
  /-- A `log.Printf` line: the format and the error argument, if any. -/
  | printf (format : String) (arg : Option GoError)
  /-- A `NewReader` call on the storage client. -/
  | newReader (bucket object : String)
  /-- An `io.Copy(w, reader)` call with its results: bytes written and error. -/
  | copy (written : Nat) (err : Option GoError)
  /-- A `reader.Close` call. -/
  | close (object : String)
  /-- A structured record of `logRequest`. -/
  | log (record : LogRecord)
  deriving DecidableEq, Repr

/-- The state threaded through a run of the handler. -/
structure State where
  w : ResponseWriter
  trace : List Event
  deriving DecidableEq, Repr

/-- The state in which the server calls the handler for the request `r`. -/
def State.init (r : Request) : State := ⟨ResponseWriter.fresh r, []⟩

/-- Appends an event to the trace. -/
def State.emit (s : State) (e : Event) : State := { s with trace := s.trace ++ [e] }

/-! ## The functions of `main.go` -/

/-- Function `logRequest(r, status, err)`. -/
def logRequest (s : State) (r : Request) (status : Nat) (err : Option GoError) : State :=
  match err with
  | some e => s.emit (.log ⟨true, "failed_request", some e, r, status⟩)
  | none => s.emit (.log ⟨false, "successful_request", none, r, status⟩)

/-- Function `validateIAP(r)`. -/
def validateIAP (env : Env) (s : State) (r : Request) : State × Bool :=
  let iapHeader := r.iapAssertion
  if iapHeader = "" then
    (s.emit (.printf "No IAP header found" none), false)
  else
    let expectedAudience := env.audience
    match env.validate iapHeader expectedAudience with
    | some err => (s.emit (.printf "Invalid IAP header: %v" (some err)), false)
    | none => (s, true)

/-- Lines 64 to 71 of `handle`: the object name of the first lookup. -/
def objectNameOf (path : String) : String :=
  let objectName := trimPrefix path "/"
  let objectName := if objectName = "" then "index.html" else objectName
  if hasSuffix path "/" then objectName ++ "index.html" else objectName

/-- Lines 96 to 103 of `handle`: copy the reader to the response, log, and
run the deferred `reader.Close()`. -/
def stream (s : State) (r : Request) (objectName : String) (reader : Reader) : State :=
  let (w1, written, err) := ioCopy s.w reader
  let s1 := { s with w := w1, trace := s.trace ++ [.copy written err] }
  let s2 :=
    match err with
    | some e =>
      let s2 := logRequest s1 r StatusInternalServerError (some e)
      { s2 with w := httpError s2.w "Internal Server Error" StatusInternalServerError }
    | none => logRequest s1 r StatusOK none
  s2.emit (.close objectName)

/-- Function `handle(w, r)`. -/
def handle (env : Env) (s0 : State) (r : Request) : State :=
  match validateIAP env s0 r with
  | (s, false) => { s with w := httpError s.w "Forbidden" StatusForbidden }
  | (s, true) =>
    let objectName := objectNameOf r.path
    let s := s.emit (.newReader env.bucketName objectName)
    match env.newReader env.bucketName objectName with
    | .error err =>
      if err = GoError.ErrObjectNotExist then
        if objectName = "index.html" then
          let s := logRequest s r StatusNotFound (some err)
          { s with w := httpError s.w "Not Found" StatusNotFound }
        else
          let objectName := objectName ++ "/index.html"
          let s := s.emit (.newReader env.bucketName objectName)
          match env.newReader env.bucketName objectName with
          | .error err =>
            let s := logRequest s r StatusNotFound (some err)
            { s with w := httpError s.w "Not Found" StatusNotFound }
          | .ok reader => stream s r objectName reader
      else
        let s := logRequest s r StatusInternalServerError (some err)
        { s with w := httpError s.w "Internal Server Error" StatusInternalServerError }
    | .ok reader => stream s r objectName reader

/-- A run of `handle` on a fresh response writer. -/
def run (env : Env) (r : Request) : State := handle env (State.init r) r

/-! ## Observations on a finished run -/

/-- The status of the response: the written one, or 200 when the handler
returned without writing the header. -/
def State.status (s : State) : Nat := s.w.status.getD StatusOK

/-- The body of the response, as sent to the client. -/
def State.body (s : State) : Bytes := s.w.body

/-- The object names of the `NewReader` calls, in order. -/
def State.lookups (s : State) : List String :=
  s.trace.filterMap fun e => match e with
    | .newReader _ object => some object
    | _ => none

/-- The structured records of `logRequest`, in order. -/
def State.logRecords (s : State) : List LogRecord :=
  s.trace.filterMap fun e => match e with
    | .log record => some record
    | _ => none

/-- Whether the copy of this run returned an error after it had written at
least one byte to the response. -/
def State.copyFailedAfterWrite (s : State) : Bool :=
  s.trace.any fun e => match e with
    | .copy written (some _) => decide (0 < written)
    | _ => false

/-- Whether the request passes `validateIAP`. -/
def authorized (env : Env) (r : Request) : Bool := (validateIAP env (State.init r) r).2

/-! ## Sample environments -/

/-- A validator that accepts every token. -/
def acceptAll : String → String → Option GoError := fun _ _ => none

/-- A validator that rejects every token. -/
def rejectAll : String → String → Option GoError := fun _ _ => some (.other "bad token")

/-- A bucket given by a list of objects; every other name does not exist. -/
def bucketOf (objects : List (String × Bytes)) : String → String → Except GoError Reader :=
  fun _ object =>
    match objects.lookup object with
    | some content => .ok ⟨content, none⟩
    | none => .error .ErrObjectNotExist

/-- An environment with an accepting validator and the given bucket content. -/
def envOf (objects : List (String × Bytes)) : Env :=
  ⟨"site", "aud", acceptAll, bucketOf objects⟩

/-- An environment with a rejecting validator and the given bucket content. -/
def envReject (objects : List (String × Bytes)) : Env :=
  ⟨"site", "aud", rejectAll, bucketOf objects⟩

/-- A bucket in which every lookup fails with a backend error. -/
def envDown : Env :=
  ⟨"site", "aud", acceptAll, fun _ _ => .error (.other "backend unavailable")⟩

/-- A bucket in which `about` does not exist and every other lookup fails with
a backend error. -/
def envFallbackDown : Env :=
  ⟨"site", "aud", acceptAll, fun _ object =>
    if object = "about" then .error .ErrObjectNotExist
    else .error (.other "backend unavailable")⟩

/-- A bucket in which `about` does not exist and `about/index.html` exists but
cannot be read: the copy fails before the first byte. -/
def envDirBroken : Env :=
  ⟨"site", "aud", acceptAll, fun _ object =>
    if object = "about/index.html" then .ok ⟨[104, 105], some (0, .other "connection reset")⟩
    else .error .ErrObjectNotExist⟩

/-- A bucket whose only object, `big`, fails after two of its three bytes. -/
def envPartial : Env :=
  ⟨"site", "aud", acceptAll, fun _ object =>
    if object = "big" then .ok ⟨[1, 2, 3], some (2, .other "connection reset")⟩
    else .error .ErrObjectNotExist⟩


/-! ## String lemmas -/

theorem trimPrefix_slash_append (n : String) : trimPrefix ("/" ++ n) "/" = n := by
  simp [trimPrefix, hasPrefix, String.data_append]

theorem hasSuffix_append_slash (s : String) : hasSuffix (s ++ "/") "/" = true := by
  simp [hasSuffix, String.data_append]

theorem objectNameOf_slash_append (n : String) (h : hasSuffix ("/" ++ n) "/" = false) :
    objectNameOf ("/" ++ n) = n := by
  have hn : n ≠ "" := by
    rintro rfl
    simp [hasSuffix] at h
  simp [objectNameOf, trimPrefix_slash_append, h, hn]

theorem objectNameOf_dir (d : String) :
    objectNameOf ("/" ++ d ++ "/") = d ++ "/index.html" := by
  have h1 : trimPrefix ("/" ++ d ++ "/") "/" = d ++ "/" := by
    rw [String.append_assoc]; exact trimPrefix_slash_append _
  have h2 : d ++ "/" ≠ "" := by
    intro h
    have hlen := congrArg String.length h
    rw [String.length_append] at hlen
    have h1 : "/".length = 1 := by decide
    have h0 : "".length = 0 := by decide
    omega
  have h3 : hasSuffix ("/" ++ d ++ "/") "/" = true := hasSuffix_append_slash _
  have h4 : d ++ "/" ++ "index.html" = d ++ "/index.html" := by
    rw [String.append_assoc]; rfl
  unfold objectNameOf
  simp only [h1, h2, h3, if_true, if_false, h4]

/-! ## Authorization by `validateIAP` -/

theorem validateIAP_of_authorized (env : Env) (r : Request) (s : State)
    (h : authorized env r = true) : validateIAP env s r = (s, true) := by
  unfold authorized validateIAP at h
  unfold validateIAP
  by_cases hh : r.iapAssertion = ""
  · simp [hh] at h
  · cases hv : env.validate r.iapAssertion env.audience with
    | none => simp [hh, hv]
    | some e => simp [hh, hv] at h

theorem validateIAP_of_denied (env : Env) (r : Request) (s : State)
    (h : r.iapAssertion = "" ∨ ∃ e, env.validate r.iapAssertion env.audience = some e) :
    ∃ line arg, validateIAP env s r = (s.emit (.printf line arg), false) := by
  unfold validateIAP
  by_cases hh : r.iapAssertion = ""
  · exact ⟨"No IAP header found", none, by simp [hh]⟩
  · rcases h with h | ⟨e, he⟩
    · exact absurd h hh
    · exact ⟨"Invalid IAP header: %v", some e, by simp [hh, he]⟩

theorem denied_of_not_authorized (env : Env) (r : Request) (h : authorized env r = false) :
    r.iapAssertion = "" ∨ ∃ e, env.validate r.iapAssertion env.audience = some e := by
  unfold authorized validateIAP at h
  by_cases hh : r.iapAssertion = ""
  · exact Or.inl hh
  · cases hv : env.validate r.iapAssertion env.audience with
    | none => simp [hh, hv] at h
    | some e => exact Or.inr ⟨e, rfl⟩

/-! ## Runs of the handler -/

theorem status_httpError_fresh (r : Request) (msg : String) (code : Nat) (t : List Event) :
    (State.mk (httpError (ResponseWriter.fresh r) msg code) t).status = code := by
  simp [State.status, httpError, ResponseWriter.write, ResponseWriter.writeHeader,
    ResponseWriter.fresh]

theorem status_copy_fresh (r : Request) (c : Bytes) (t : List Event) :
    (State.mk (if c.isEmpty then ResponseWriter.fresh r else (ResponseWriter.fresh r).write c)
      t).status = 200 := by
  by_cases hc : c.isEmpty = true <;>
    simp [hc, State.status, ResponseWriter.write, ResponseWriter.writeHeader,
      ResponseWriter.fresh, StatusOK]

theorem body_copy_fresh (r : Request) (c : Bytes) (t : List Event) :
    (State.mk (if c.isEmpty then ResponseWriter.fresh r else (ResponseWriter.fresh r).write c)
      t).body = if r.method = "HEAD" then [] else c := by
  by_cases hc : c.isEmpty = true
  · have h0 : c = [] := List.isEmpty_iff.mp hc
    simp [h0, State.body, ResponseWriter.fresh]
  · by_cases hm : r.method = "HEAD" <;>
      simp [hc, hm, State.body, ResponseWriter.write, ResponseWriter.writeHeader,
        ResponseWriter.fresh]

theorem status_fault_after_write (r : Request) (c : Bytes) (t : List Event) :
    (State.mk (httpError ((ResponseWriter.fresh r).write c) "Internal Server Error"
      StatusInternalServerError) t).status = 200 := by
  simp [State.status, httpError, ResponseWriter.write, ResponseWriter.writeHeader,
    ResponseWriter.fresh, StatusOK]

theorem run_authorized (env : Env) (r : Request) (h : authorized env r = true) :
    run env r =
      match env.newReader env.bucketName (objectNameOf r.path) with
      | .error err =>
        if err = GoError.ErrObjectNotExist then
          if objectNameOf r.path = "index.html" then
            ⟨httpError (ResponseWriter.fresh r) "Not Found" StatusNotFound,
              [.newReader env.bucketName (objectNameOf r.path),
               .log ⟨true, "failed_request", some err, r, StatusNotFound⟩]⟩
          else
            match env.newReader env.bucketName (objectNameOf r.path ++ "/index.html") with
            | .error err2 =>
              ⟨httpError (ResponseWriter.fresh r) "Not Found" StatusNotFound,
                [.newReader env.bucketName (objectNameOf r.path),
                 .newReader env.bucketName (objectNameOf r.path ++ "/index.html"),
                 .log ⟨true, "failed_request", some err2, r, StatusNotFound⟩]⟩
            | .ok reader =>
              stream ⟨ResponseWriter.fresh r, [.newReader env.bucketName (objectNameOf r.path),
                .newReader env.bucketName (objectNameOf r.path ++ "/index.html")]⟩ r
                (objectNameOf r.path ++ "/index.html") reader
        else
          ⟨httpError (ResponseWriter.fresh r) "Internal Server Error" StatusInternalServerError,
            [.newReader env.bucketName (objectNameOf r.path),
             .log ⟨true, "failed_request", some err, r, StatusInternalServerError⟩]⟩
      | .ok reader =>
        stream ⟨ResponseWriter.fresh r, [.newReader env.bucketName (objectNameOf r.path)]⟩ r
          (objectNameOf r.path) reader := by
  unfold run handle
  rw [validateIAP_of_authorized env r _ h]
  simp only [State.init, State.emit, List.nil_append]
  cases h1 : env.newReader env.bucketName (objectNameOf r.path) with
  | ok reader => rfl
  | error err =>
    simp only []
    by_cases he : err = GoError.ErrObjectNotExist
    · simp only [he, if_true]
      by_cases hn : objectNameOf r.path = "index.html"
      · simp [hn, logRequest, State.emit]
      · simp only [hn, if_false]
        cases h2 : env.newReader env.bucketName (objectNameOf r.path ++ "/index.html") with
        | ok reader => rfl
        | error err2 => simp [logRequest, State.emit]
    · simp [he, logRequest, State.emit]

theorem run_denied (env : Env) (r : Request)
    (h : r.iapAssertion = "" ∨ ∃ e, env.validate r.iapAssertion env.audience = some e) :
    ∃ line arg, run env r =
      ⟨httpError (ResponseWriter.fresh r) "Forbidden" StatusForbidden, [.printf line arg]⟩ := by
  obtain ⟨line, arg, hv⟩ := validateIAP_of_denied env r (State.init r) h
  refine ⟨line, arg, ?_⟩
  unfold run handle
  rw [hv]
  simp [State.init, State.emit]

theorem stream_ok (w : ResponseWriter) (t : List Event) (r : Request) (name : String)
    (rd : Reader) (h : rd.copyFault = none) :
    stream ⟨w, t⟩ r name rd =
      ⟨if rd.content.isEmpty then w else w.write rd.content,
        t ++ [.copy rd.content.length none,
          .log ⟨false, "successful_request", none, r, StatusOK⟩, .close name]⟩ := by
  simp [stream, ioCopy, h, logRequest, State.emit]

theorem stream_fault (w : ResponseWriter) (t : List Event) (r : Request) (name : String)
    (rd : Reader) (k : Nat) (e : GoError) (h : rd.copyFault = some (k, e)) :
    stream ⟨w, t⟩ r name rd =
      ⟨httpError (if (rd.content.take k).isEmpty then w else w.write (rd.content.take k))
          "Internal Server Error" StatusInternalServerError,
        t ++ [.copy (rd.content.take k).length (some e),
          .log ⟨true, "failed_request", some e, r, StatusInternalServerError⟩,
          .close name]⟩ := by
  simp [stream, ioCopy, h, logRequest, State.emit]

/-! ## Authorization (C1) -/

/-- C1: a request whose assertion header is absent or empty, or whose assertion
the token validator rejects with an error, gets status 403 and the handler makes
no `NewReader` call at all, whatever the path and the bucket content. -/
theorem denied_request_forbidden_without_lookup (env : Env) (r : Request)
    (h : r.iapAssertion = "" ∨ ∃ e, env.validate r.iapAssertion env.audience = some e) :
    (run env r).status = 403 ∧ (run env r).lookups = [] := by
  obtain ⟨line, arg, hrun⟩ := run_denied env r h
  rw [hrun]
  exact ⟨status_httpError_fresh _ _ _ _, by simp [State.lookups]⟩

/-- C1 at a forged token for an object that exists in the bucket. -/
theorem denied_request_forbidden_without_lookup_witness :
    (∃ e, (envReject [("index.html", [60, 62])]).validate "forged"
        (envReject [("index.html", [60, 62])]).audience = some e) ∧
    (run (envReject [("index.html", [60, 62])]) ⟨"GET", "/index.html", "forged"⟩).status
      = 403 ∧
    (run (envReject [("index.html", [60, 62])]) ⟨"GET", "/index.html", "forged"⟩).lookups
      = [] :=
  ⟨⟨.other "bad token", rfl⟩,
    denied_request_forbidden_without_lookup (envReject [("index.html", [60, 62])])
      ⟨"GET", "/index.html", "forged"⟩ (Or.inr ⟨.other "bad token", rfl⟩)⟩

/-! ## Name resolution (C2, C9) -/

theorem lookups_head_authorized (env : Env) (r : Request) (h : authorized env r = true) :
    (run env r).lookups.head? = some (objectNameOf r.path) := by
  rw [run_authorized _ _ h]
  cases h1 : env.newReader env.bucketName (objectNameOf r.path) with
  | ok rd =>
    cases hf : rd.copyFault with
    | none => simp [stream_ok _ _ _ _ _ hf, State.lookups]
    | some ke => obtain ⟨k, e⟩ := ke; simp [stream_fault _ _ _ _ _ k e hf, State.lookups]
  | error err =>
    simp only []
    by_cases he : err = GoError.ErrObjectNotExist
    · simp only [he, if_true]
      by_cases hn : objectNameOf r.path = "index.html"
      · simp [hn, State.lookups]
      · simp only [hn, if_false]
        cases h2 : env.newReader env.bucketName (objectNameOf r.path ++ "/index.html") with
        | ok rd =>
          cases hf : rd.copyFault with
          | none => simp [stream_ok _ _ _ _ _ hf, State.lookups]
          | some ke => obtain ⟨k, e⟩ := ke; simp [stream_fault _ _ _ _ _ k e hf, State.lookups]
        | error err2 => simp [State.lookups]
    · simp [he, State.lookups]

/-- C2 (evaluation of the code): for an authorized request with path `/` the
name resolved by the handler is `index.htmlindex.html`, not `index.html`: the
empty name is replaced by `index.html` and the trailing-slash rule then appends
`index.html` once more.  Against a bucket that holds `index.html` the lookups
are `index.htmlindex.html` and `index.htmlindex.html/index.html`, and the
response is 404. -/
theorem root_path_resolves_to_doubled_index :
    objectNameOf "/" = "index.htmlindex.html" ∧
    (run (envOf [("index.html", [60, 62])]) ⟨"GET", "/", "tok"⟩).lookups =
      ["index.htmlindex.html", "index.htmlindex.html/index.html"] ∧
    (run (envOf [("index.html", [60, 62])]) ⟨"GET", "/", "tok"⟩).status = 404 := by
  decide

/-- C9: for every non-empty `d`, an authorized request with path `/d/` has
`d/index.html` as the object name of its first lookup. -/
theorem trailing_slash_first_lookup (env : Env) (r : Request) (d : String)
    (_hd : d ≠ "") (hauth : authorized env r = true) (hpath : r.path = "/" ++ d ++ "/") :
    (run env r).lookups.head? = some (d ++ "/index.html") := by
  rw [lookups_head_authorized env r hauth, hpath, objectNameOf_dir]

/-- C9 at the path `/docs/`. -/
theorem trailing_slash_first_lookup_witness :
    (run (envOf [("docs/index.html", [100])]) ⟨"GET", "/docs/", "tok"⟩).lookups.head?
      = some ("docs" ++ "/index.html") :=
  trailing_slash_first_lookup (envOf [("docs/index.html", [100])]) ⟨"GET", "/docs/", "tok"⟩
    "docs" (by decide) (by decide) (by decide)

/-! ## Serving an object (C3, C4) -/

/-- C3 as stated fails for a `HEAD` request: the handler serves every method,
the object `app.js` exists and its copy succeeds, the status is 200 after one
lookup, but the server sends no body for `HEAD`, so the body is empty and not
the content of the object. -/
theorem head_request_has_empty_body :
    authorized (envOf [("app.js", [47, 47, 10])]) ⟨"HEAD", "/app.js", "tok"⟩ = true ∧
    (envOf [("app.js", [47, 47, 10])]).newReader "site" (objectNameOf "/app.js")
      = .ok ⟨[47, 47, 10], none⟩ ∧
    (run (envOf [("app.js", [47, 47, 10])]) ⟨"HEAD", "/app.js", "tok"⟩).lookups = ["app.js"] ∧
    (run (envOf [("app.js", [47, 47, 10])]) ⟨"HEAD", "/app.js", "tok"⟩).status = 200 ∧
    (run (envOf [("app.js", [47, 47, 10])]) ⟨"HEAD", "/app.js", "tok"⟩).body = [] ∧
    (run (envOf [("app.js", [47, 47, 10])]) ⟨"HEAD", "/app.js", "tok"⟩).body
      ≠ [47, 47, 10] := by
  decide

/-- C3 (amended): for an authorized request whose first-lookup object exists and
whose copy succeeds, the handler makes exactly one lookup and the status is 200;
the body is exactly the content of the object when the method is not `HEAD`,
and empty when it is. -/
theorem first_lookup_hit_streams_content (env : Env) (r : Request) (rd : Reader)
    (hauth : authorized env r = true)
    (hopen : env.newReader env.bucketName (objectNameOf r.path) = .ok rd)
    (hcopy : rd.copyFault = none) :
    (run env r).lookups = [objectNameOf r.path] ∧ (run env r).status = 200 ∧
      (run env r).body = if r.method = "HEAD" then [] else rd.content := by
  rw [run_authorized _ _ hauth, hopen]
  simp only [stream_ok _ _ _ _ _ hcopy]
  exact ⟨by simp [State.lookups], status_copy_fresh _ _ _, body_copy_fresh _ _ _⟩

/-- C3 (amended) at `GET /app.js`: the body is the content of `app.js`. -/
theorem first_lookup_hit_streams_content_witness :
    (run (envOf [("app.js", [47, 47, 10])]) ⟨"GET", "/app.js", "tok"⟩).lookups
        = [objectNameOf "/app.js"] ∧
      (run (envOf [("app.js", [47, 47, 10])]) ⟨"GET", "/app.js", "tok"⟩).status = 200 ∧
      (run (envOf [("app.js", [47, 47, 10])]) ⟨"GET", "/app.js", "tok"⟩).body = [47, 47, 10] :=
  first_lookup_hit_streams_content (envOf [("app.js", [47, 47, 10])])
    ⟨"GET", "/app.js", "tok"⟩ ⟨[47, 47, 10], none⟩ (by decide) (by decide) rfl

/-- C4 as stated fails at three inputs.  At `GET /index.html`, where
`index.html` does not exist and `index.html/index.html` exists, the handler
answers 404 after a single lookup, because a missing `index.html` is never
followed by a fallback.  At `GET /about`, where `about` does not exist and
`about/index.html` exists with content `[104, 105]` but its copy fails, the
handler answers 500 and the body is not that content.  At `HEAD /about`, where
`about/index.html` exists and its copy succeeds, the status is 200 after the
two lookups but the body is empty. -/
theorem fallback_claim_fails :
    (authorized (envOf [("index.html/index.html", [104, 105])])
        ⟨"GET", "/index.html", "tok"⟩ = true ∧
      hasSuffix "/index.html" "/" = false ∧
      trimPrefix "/index.html" "/" = "index.html" ∧
      (envOf [("index.html/index.html", [104, 105])]).newReader "site" "index.html"
        = .error .ErrObjectNotExist ∧
      (envOf [("index.html/index.html", [104, 105])]).newReader "site"
          ("index.html" ++ "/index.html") = .ok ⟨[104, 105], none⟩ ∧
      (run (envOf [("index.html/index.html", [104, 105])])
        ⟨"GET", "/index.html", "tok"⟩).status = 404 ∧
      (run (envOf [("index.html/index.html", [104, 105])])
        ⟨"GET", "/index.html", "tok"⟩).lookups = ["index.html"]) ∧
    (authorized envDirBroken ⟨"GET", "/about", "tok"⟩ = true ∧
      hasSuffix "/about" "/" = false ∧
      trimPrefix "/about" "/" = "about" ∧
      envDirBroken.newReader "site" "about" = .error .ErrObjectNotExist ∧
      envDirBroken.newReader "site" ("about" ++ "/index.html")
        = .ok ⟨[104, 105], some (0, .other "connection reset")⟩ ∧
      (run envDirBroken ⟨"GET", "/about", "tok"⟩).status = 500 ∧
      (run envDirBroken ⟨"GET", "/about", "tok"⟩).body ≠ [104, 105] ∧
      (run envDirBroken ⟨"GET", "/about", "tok"⟩).lookups = ["about", "about/index.html"]) ∧
    (authorized (envOf [("about/index.html", [104, 105])]) ⟨"HEAD", "/about", "tok"⟩ = true ∧
      (envOf [("about/index.html", [104, 105])]).newReader "site" "about"
        = .error .ErrObjectNotExist ∧
      (envOf [("about/index.html", [104, 105])]).newReader "site" ("about" ++ "/index.html")
        = .ok ⟨[104, 105], none⟩ ∧
      (run (envOf [("about/index.html", [104, 105])]) ⟨"HEAD", "/about", "tok"⟩).status
        = 200 ∧
      (run (envOf [("about/index.html", [104, 105])]) ⟨"HEAD", "/about", "tok"⟩).lookups
        = ["about", "about/index.html"] ∧
      (run (envOf [("about/index.html", [104, 105])]) ⟨"HEAD", "/about", "tok"⟩).body = [] ∧
      (run (envOf [("about/index.html", [104, 105])]) ⟨"HEAD", "/about", "tok"⟩).body
        ≠ [104, 105]) := by
  decide

/-- C4 (amended): for an authorized request with path `/n` without trailing
slash and with `n` other than `index.html`, if `n` does not exist and
`n/index.html` exists and its copy succeeds, then the status is 200, the
lookups are exactly `n` and then `n/index.html`, and the body is the content of
`n/index.html` when the method is not `HEAD`, and empty when it is. -/
theorem directory_fallback_serves_index (env : Env) (r : Request) (n : String) (rd : Reader)
    (hauth : authorized env r = true)
    (hpath : r.path = "/" ++ n) (hslash : hasSuffix r.path "/" = false)
    (hn : n ≠ "index.html")
    (hmiss : env.newReader env.bucketName n = .error .ErrObjectNotExist)
    (hopen : env.newReader env.bucketName (n ++ "/index.html") = .ok rd)
    (hcopy : rd.copyFault = none) :
    (run env r).status = 200 ∧
      (run env r).body = (if r.method = "HEAD" then [] else rd.content) ∧
      (run env r).lookups = [n, n ++ "/index.html"] := by
  have hname : objectNameOf r.path = n := by
    rw [hpath] at hslash ⊢
    exact objectNameOf_slash_append n hslash
  rw [run_authorized _ _ hauth, hname, hmiss]
  simp only [if_true, hn, if_false]
  rw [hopen]
  simp only [stream_ok _ _ _ _ _ hcopy]
  exact ⟨status_copy_fresh _ _ _, body_copy_fresh _ _ _, by simp [State.lookups]⟩

/-- C4 (amended) at `GET /about`: the body is the content of `about/index.html`. -/
theorem directory_fallback_serves_index_witness :
    (run (envOf [("about/index.html", [104, 105])]) ⟨"GET", "/about", "tok"⟩).status = 200 ∧
      (run (envOf [("about/index.html", [104, 105])]) ⟨"GET", "/about", "tok"⟩).body
        = [104, 105] ∧
      (run (envOf [("about/index.html", [104, 105])]) ⟨"GET", "/about", "tok"⟩).lookups
        = ["about", "about" ++ "/index.html"] :=
  directory_fallback_serves_index (envOf [("about/index.html", [104, 105])])
    ⟨"GET", "/about", "tok"⟩ "about" ⟨[104, 105], none⟩ (by decide) (by decide) (by decide)
    (by decide) (by decide) (by decide) rfl

/-! ## Misses and backend errors (C5, C6, C7, C10) -/

/-- C5: for an authorized request whose object name `n` is not `index.html`,
if neither `n` nor `n/index.html` exists, the status is 404 and the lookups are
exactly two: `n`, then `n/index.html`. -/
theorem double_miss_not_found (env : Env) (r : Request)
    (hauth : authorized env r = true)
    (hn : objectNameOf r.path ≠ "index.html")
    (hmiss : env.newReader env.bucketName (objectNameOf r.path) = .error .ErrObjectNotExist)
    (hmiss2 : env.newReader env.bucketName (objectNameOf r.path ++ "/index.html")
      = .error .ErrObjectNotExist) :
    (run env r).status = 404 ∧
      (run env r).lookups = [objectNameOf r.path, objectNameOf r.path ++ "/index.html"] := by
  rw [run_authorized _ _ hauth, hmiss]
  simp only [if_true, hn, if_false]
  rw [hmiss2]
  exact ⟨status_httpError_fresh _ _ _ _, by simp [State.lookups]⟩

/-- C5 at the path `/about` against an empty bucket. -/
theorem double_miss_not_found_witness :
    objectNameOf "/about" = "about" ∧
    (run (envOf []) ⟨"GET", "/about", "tok"⟩).status = 404 ∧
      (run (envOf []) ⟨"GET", "/about", "tok"⟩).lookups
        = [objectNameOf "/about", objectNameOf "/about" ++ "/index.html"] :=
  ⟨by decide,
    double_miss_not_found (envOf []) ⟨"GET", "/about", "tok"⟩ (by decide) (by decide) (by decide)
      (by decide)⟩

theorem index_html_miss_is_definitive (env : Env) (r : Request)
    (hauth : authorized env r = true)
    (hn : objectNameOf r.path = "index.html")
    (hmiss : env.newReader env.bucketName "index.html" = .error .ErrObjectNotExist) :
    (run env r).status = 404 ∧ (run env r).lookups = ["index.html"] := by
  rw [run_authorized _ _ hauth, hn, hmiss]
  simp only [if_true]
  exact ⟨status_httpError_fresh _ _ _ _, by simp [State.lookups]⟩

/-- C6 (evaluation of the code): against a bucket without `index.html`, the
request `/index.html` ends in 404 after the single lookup `index.html`, but the
request `/` makes two lookups, `index.htmlindex.html` and then the fallback
`index.htmlindex.html/index.html`, and never looks `index.html` up. -/
theorem root_path_miss_tries_fallback :
    (envOf []).newReader "site" "index.html" = .error .ErrObjectNotExist ∧
    (run (envOf []) ⟨"GET", "/index.html", "tok"⟩).status = 404 ∧
    (run (envOf []) ⟨"GET", "/index.html", "tok"⟩).lookups = ["index.html"] ∧
    (run (envOf []) ⟨"GET", "/", "tok"⟩).status = 404 ∧
    (run (envOf []) ⟨"GET", "/", "tok"⟩).lookups =
      ["index.htmlindex.html", "index.htmlindex.html/index.html"] := by
  decide

/-- C7: for an authorized request whose first lookup fails with an error other
than `storage.ErrObjectNotExist`, the status is 500 and that lookup is the only
one. -/
theorem backend_error_is_500_without_fallback (env : Env) (r : Request) (e : GoError)
    (hauth : authorized env r = true)
    (herr : env.newReader env.bucketName (objectNameOf r.path) = .error e)
    (hne : e ≠ .ErrObjectNotExist) :
    (run env r).status = 500 ∧ (run env r).lookups = [objectNameOf r.path] := by
  rw [run_authorized _ _ hauth, herr]
  simp only [hne, if_false]
  exact ⟨status_httpError_fresh _ _ _ _, by simp [State.lookups]⟩

/-- C7 at the path `/about` against a failing backend. -/
theorem backend_error_is_500_without_fallback_witness :
    (run envDown ⟨"GET", "/about", "tok"⟩).status = 500 ∧
      (run envDown ⟨"GET", "/about", "tok"⟩).lookups = [objectNameOf "/about"] :=
  backend_error_is_500_without_fallback envDown ⟨"GET", "/about", "tok"⟩
    (.other "backend unavailable") (by decide) (by decide) (by decide)

/-- C10: for an authorized request whose first lookup reports
`storage.ErrObjectNotExist` and whose object name is not `index.html`, if the
fallback lookup fails with any error whatever, the status is 404 and not 500. -/
theorem fallback_error_is_always_404 (env : Env) (r : Request) (e : GoError)
    (hauth : authorized env r = true)
    (hn : objectNameOf r.path ≠ "index.html")
    (hmiss : env.newReader env.bucketName (objectNameOf r.path) = .error .ErrObjectNotExist)
    (herr : env.newReader env.bucketName (objectNameOf r.path ++ "/index.html") = .error e) :
    (run env r).status = 404 ∧ (run env r).status ≠ 500 := by
  have h404 : (run env r).status = 404 := by
    rw [run_authorized _ _ hauth, hmiss]
    simp only [if_true, hn, if_false]
    rw [herr]
    exact status_httpError_fresh _ _ _ _
  exact ⟨h404, by rw [h404]; decide⟩

/-- C10 at the path `/about` where the fallback lookup hits a backend error. -/
theorem fallback_error_is_always_404_witness :
    envFallbackDown.newReader "site" "about/index.html" = .error (.other "backend unavailable") ∧
    (run envFallbackDown ⟨"GET", "/about", "tok"⟩).status = 404 ∧
      (run envFallbackDown ⟨"GET", "/about", "tok"⟩).status ≠ 500 :=
  ⟨by decide,
    fallback_error_is_always_404 envFallbackDown ⟨"GET", "/about", "tok"⟩
      (.other "backend unavailable") (by decide) (by decide) (by decide) (by decide)⟩

/-! ## The structured log (C8) -/

/-- C8 as stated fails at two inputs.  For a denied request the response is
403 and the handler emits no `logRequest` record, only the `log.Printf` line of
`validateIAP`.  For an authorized request whose copy fails after two bytes were
written, the record carries 500 while the status of the response, fixed by the
first write, is 200. -/
theorem log_record_claim_fails :
    ((run (envOf []) ⟨"GET", "/about", ""⟩).status = 403 ∧
      (run (envOf []) ⟨"GET", "/about", ""⟩).logRecords = [] ∧
      (run (envOf []) ⟨"GET", "/about", ""⟩).trace = [.printf "No IAP header found" none]) ∧
    (authorized envPartial ⟨"GET", "/big", "tok"⟩ = true ∧
      (run envPartial ⟨"GET", "/big", "tok"⟩).copyFailedAfterWrite = true ∧
      (run envPartial ⟨"GET", "/big", "tok"⟩).status = 200 ∧
      (run envPartial ⟨"GET", "/big", "tok"⟩).logRecords.map (fun record => record.status)
        = [500]) := by
  decide

theorem stream_fresh_logged_once (r : Request) (name : String) (rd : Reader) (t : List Event)
    (hl : (State.mk (ResponseWriter.fresh r) t).logRecords = [])
    (hc : (State.mk (ResponseWriter.fresh r) t).copyFailedAfterWrite = false) :
    ∃ record, (stream ⟨ResponseWriter.fresh r, t⟩ r name rd).logRecords = [record] ∧
      ((stream ⟨ResponseWriter.fresh r, t⟩ r name rd).copyFailedAfterWrite = false →
        record.status = (stream ⟨ResponseWriter.fresh r, t⟩ r name rd).status) ∧
      ((stream ⟨ResponseWriter.fresh r, t⟩ r name rd).copyFailedAfterWrite = true →
        record.status = 500 ∧ (stream ⟨ResponseWriter.fresh r, t⟩ r name rd).status = 200) := by
  simp only [State.logRecords, State.copyFailedAfterWrite] at hl hc
  cases hf : rd.copyFault with
  | none =>
    rw [stream_ok _ _ _ _ _ hf]
    refine ⟨⟨false, "successful_request", none, r, StatusOK⟩,
      by simp [State.logRecords, hl], fun _ => (status_copy_fresh _ _ _).symm, fun h => ?_⟩
    simp [State.copyFailedAfterWrite, hc] at h
  | some ke =>
    obtain ⟨k, e⟩ := ke
    rw [stream_fault _ _ _ _ _ k e hf]
    refine ⟨⟨true, "failed_request", some e, r, StatusInternalServerError⟩,
      by simp [State.logRecords, hl], ?_, ?_⟩
    · intro h
      have hk : rd.content.take k = [] := by
        cases hh : rd.content.take k with
        | nil => rfl
        | cons x xs => simp [State.copyFailedAfterWrite, hc, hh] at h
      simp only [hk, List.isEmpty_nil, if_true]
      exact (status_httpError_fresh _ _ _ _).symm
    · intro h
      have hk : (rd.content.take k).isEmpty = false := by
        cases hh : rd.content.take k with
        | nil => simp [State.copyFailedAfterWrite, hc, hh] at h
        | cons x xs => rfl
      simp only [hk, Bool.false_eq_true, if_false]
      exact ⟨rfl, status_fault_after_write _ _ _⟩

/-- C8 (amended): for every authorized request the handler emits exactly one
`logRequest` record; the status of that record is the status of the response,
unless the copy of this request fails after it wrote bytes to the response,
where the record carries 500 and the status of the response stays 200.  For
every denied request the status is 403 and the handler emits no `logRequest`
record, only one `log.Printf` line. -/
theorem log_record_per_outcome (env : Env) (r : Request) :
    (authorized env r = true →
      ∃ record, (run env r).logRecords = [record] ∧
        ((run env r).copyFailedAfterWrite = false → record.status = (run env r).status) ∧
        ((run env r).copyFailedAfterWrite = true →
          record.status = 500 ∧ (run env r).status = 200)) ∧
    (authorized env r = false →
      (run env r).status = 403 ∧ (run env r).logRecords = [] ∧
        ∃ format arg, (run env r).trace = [.printf format arg]) := by
  constructor
  · intro hauth
    rw [run_authorized _ _ hauth]
    cases h1 : env.newReader env.bucketName (objectNameOf r.path) with
    | ok rd =>
      exact stream_fresh_logged_once r _ rd _ (by simp [State.logRecords])
        (by simp [State.copyFailedAfterWrite])
    | error err =>
      simp only []
      by_cases he : err = GoError.ErrObjectNotExist
      · simp only [he, if_true]
        by_cases hn : objectNameOf r.path = "index.html"
        · simp only [hn, if_true]
          exact ⟨⟨true, "failed_request", some .ErrObjectNotExist, r, StatusNotFound⟩,
            by simp [State.logRecords], fun _ => (status_httpError_fresh _ _ _ _).symm,
            fun h => by simp [State.copyFailedAfterWrite] at h⟩
        · simp only [hn, if_false]
          cases h2 : env.newReader env.bucketName (objectNameOf r.path ++ "/index.html") with
          | ok rd =>
            exact stream_fresh_logged_once r _ rd _ (by simp [State.logRecords])
              (by simp [State.copyFailedAfterWrite])
          | error err2 =>
            simp only []
            exact ⟨⟨true, "failed_request", some err2, r, StatusNotFound⟩,
              by simp [State.logRecords], fun _ => (status_httpError_fresh _ _ _ _).symm,
              fun h => by simp [State.copyFailedAfterWrite] at h⟩
      · simp only [he, if_false]
        exact ⟨⟨true, "failed_request", some err, r, StatusInternalServerError⟩,
          by simp [State.logRecords], fun _ => (status_httpError_fresh _ _ _ _).symm,
          fun h => by simp [State.copyFailedAfterWrite] at h⟩
  · intro hden
    obtain ⟨line, arg, hrun⟩ := run_denied env r (denied_of_not_authorized env r hden)
    rw [hrun]
    exact ⟨status_httpError_fresh _ _ _ _, by simp [State.logRecords], line, arg, rfl⟩

/-- C8 (amended) at three requests: `GET /about` on a bucket whose other
object cannot be copied (404, record 404), `GET /big` whose copy fails after two
bytes (record 500, status 200), and a request with a rejected token (403, no
record). -/
theorem log_record_per_outcome_witness :
    (authorized envPartial ⟨"GET", "/about", "tok"⟩ = true ∧
      (run envPartial ⟨"GET", "/about", "tok"⟩).copyFailedAfterWrite = false ∧
      ∃ record, (run envPartial ⟨"GET", "/about", "tok"⟩).logRecords = [record] ∧
        record.status = (run envPartial ⟨"GET", "/about", "tok"⟩).status) ∧
    (authorized envPartial ⟨"GET", "/big", "tok"⟩ = true ∧
      (run envPartial ⟨"GET", "/big", "tok"⟩).copyFailedAfterWrite = true ∧
      ∃ record, (run envPartial ⟨"GET", "/big", "tok"⟩).logRecords = [record] ∧
        record.status = 500 ∧ (run envPartial ⟨"GET", "/big", "tok"⟩).status = 200) ∧
    (authorized (envReject [("index.html", [60, 62])]) ⟨"GET", "/index.html", "forged"⟩
        = false ∧
      (run (envReject [("index.html", [60, 62])]) ⟨"GET", "/index.html", "forged"⟩).status
        = 403 ∧
      (run (envReject [("index.html", [60, 62])]) ⟨"GET", "/index.html", "forged"⟩).logRecords
        = []) :=
  ⟨⟨by decide, by decide,
      ((log_record_per_outcome envPartial ⟨"GET", "/about", "tok"⟩).1 (by decide)).imp
        fun _ h => ⟨h.1, h.2.1 (by decide)⟩⟩,
    ⟨by decide, by decide,
      ((log_record_per_outcome envPartial ⟨"GET", "/big", "tok"⟩).1 (by decide)).imp
        fun _ h => ⟨h.1, h.2.2 (by decide)⟩⟩,
    ⟨by decide,
      ((log_record_per_outcome (envReject [("index.html", [60, 62])])
        ⟨"GET", "/index.html", "forged"⟩).2 (by decide)).1,
      ((log_record_per_outcome (envReject [("index.html", [60, 62])])
        ⟨"GET", "/index.html", "forged"⟩).2 (by decide)).2.1⟩⟩

end IapGcsServer
